import Mathlib

/-!
Shallow embedding of the Terminal-Anime-List main module (src/src/xyz.rs) and
proofs about its navigation and mutation dispatch.

Modelling conventions:
* Rust `usize` values are modelled as `Nat`; a `usize` subtraction that would
  underflow is a panic in the source (debug semantics), so a handler that can
  reach one returns `Option`: `none` is a panic, `some s` is the next state.
* An `.expect(..)` on an `Err` result is likewise a panic (`none`).
* The persisted file at `DB_PATH` is carried in the state as the list `db`;
  `read_db()` (declared by its call sites, lines 277/286/300/309, and used for
  both the anime and the manga branch) returns that list.
* `f32` is modelled as an exact rational and `chrono::Date<Utc>` as a calendar
  date record; no theorem below inspects either field.
* The source file contains several fragments that are not legal Rust; each
  such place is modelled by its nearest legal reading and flagged in the doc
  comment of the corresponding definition.
-/

namespace TerminalAnimeList

/-- Lines 52-56: `enum MenuItem { Anime, Manga }`. -/
inductive MenuItem where
  | Anime
  | Manga
deriving DecidableEq

/-- Lines 58-66: `enum CategoryItem`. The source spells the variants
`On Hold` and `Plan To Watch` with spaces (not legal Rust identifiers);
they are rendered here as `OnHold` and `PlanToWatch`. -/
inductive CategoryItem where
  | All
  | Watching
  | Completed
  | OnHold
  | Dropped
  | PlanToWatch
deriving DecidableEq

/-- Lines 68-72: `enum OptionItem { Edit, Quit }`. -/
inductive OptionItem where
  | Edit
  | Quit
deriving DecidableEq

/-- Lines 75-82: `impl From<MenuItem> for usize`. -/
def menuItemToUsize : MenuItem → Nat
  | .Anime => 0
  | .Manga => 1

/-- Lines 84-95: `impl From<CategoryItem> for usize`. -/
def categoryItemToUsize : CategoryItem → Nat
  | .All => 0
  | .Watching => 1
  | .Completed => 2
  | .OnHold => 3
  | .Dropped => 4
  | .PlanToWatch => 5

/-- Lines 97-104: `impl From<OptionItem> for usize`. -/
def optionItemToUsize : OptionItem → Nat
  | .Edit => 0
  | .Quit => 1

/-- Calendar date, modelling `chrono::Date<Utc>` (line 49): a day in the
proleptic Gregorian calendar, no time component. -/
structure CalDate where
  year : Nat
  month : Nat
  day : Nat
deriving DecidableEq

/-- Lines 40-50: `struct Anime`. `rating: f32` is modelled as an exact
rational; no theorem in this file depends on its arithmetic. -/
structure Anime where
  name : String
  year : Nat
  episodes : Nat
  watched : Nat
  status : String
  rating : ℚ
  score : Nat
  started : CalDate
deriving DecidableEq

/-- The mutable state of `main`'s loop (lines 141-147 declare it):
`active_menu_item`, `active_category_item`, the two `ListState` selections,
and the contents of the persisted file at `DB_PATH` that `read_db()` returns.
Line 142 declares `active_category_item` with type `MenuItem` (its
initializer `MenuItem::All` names a variant that does not exist — a slip);
the field keeps the declared type because the dispatch (lines 246, 253, 260,
267, 275, 298) compares it against `Anime`, i.e. `MenuItem::Anime`. -/
structure AppState where
  active_menu_item : MenuItem
  active_category_item : MenuItem
  anime_sel : Option Nat
  manga_sel : Option Nat
  db : List Anime
deriving DecidableEq

/-- Line 141: `let mut active_menu_item = MenuItem::Anime;`. -/
def initial_active_menu_item : MenuItem := MenuItem.Anime

/-- Lines 144-145: `anime_list_state.select(Some(0));` — unconditionally,
whether or not the list is empty. -/
def initial_anime_selection : Option Nat := some 0

/-- Lines 146-147: `manga_list_state.select(Some(0));` — unconditionally. -/
def initial_manga_selection : Option Nat := some 0

/-- The selection-advance arithmetic of the cursor-down handler
(lines 278-282 and 287-291): `if selected >= amount - 1 { 0 } else
{ selected + 1 }`, for `amount ≥ 1` (the `amount = 0` case underflows in the
source and is handled as a panic in `onDown` below). -/
def downStep (amount selected : Nat) : Nat :=
  if selected ≥ amount - 1 then 0 else selected + 1

/-- Lines 274-296, the `KeyCode::Down` arm. The branch is chosen by
`active_category_item == Anime` (line 275) — not by `active_menu_item`.
Both branches take the length of the same `read_db()` result (lines 277 and
286). When the selected list-state holds `Some(selected)` and the list is
empty, the source evaluates `amount - 1` on a `usize` of value 0, which
panics (`none`); when it holds `None`, the arm does nothing. -/
def onDown (s : AppState) : Option AppState :=
  if s.active_category_item = MenuItem.Anime then
    match s.anime_sel with
    | some selected =>
        let amount_anime := s.db.length
        if amount_anime = 0 then none
        else some { s with anime_sel := some (downStep amount_anime selected) }
    | none => some s
  else
    match s.manga_sel with
    | some selected =>
        let amount_manga := s.db.length
        if amount_manga = 0 then none
        else some { s with manga_sel := some (downStep amount_manga selected) }
    | none => some s

/-- Lines 297-318, the `KeyCode::Up` arm. `if selected > 0 { selected - 1 }
else { amount - 1 }`; the `else` branch underflows (panics, `none`) when the
list is empty. As in `onDown`, the branch is chosen by
`active_category_item == Anime` and both branches measure `read_db()`. -/
def onUp (s : AppState) : Option AppState :=
  if s.active_category_item = MenuItem.Anime then
    match s.anime_sel with
    | some selected =>
        let amount_anime := s.db.length
        if selected > 0 then some { s with anime_sel := some (selected - 1) }
        else if amount_anime = 0 then none
        else some { s with anime_sel := some (amount_anime - 1) }
    | none => some s
  else
    match s.manga_sel with
    | some selected =>
        let amount_manga := s.db.length
        if selected > 0 then some { s with manga_sel := some (selected - 1) }
        else if amount_manga = 0 then none
        else some { s with manga_sel := some (amount_manga - 1) }
    | none => some s

/-- Line 243: `KeyCode::Char('a') => active_menu_item = MenuItem::Anime`. -/
def onKeyA (s : AppState) : AppState := { s with active_menu_item := MenuItem.Anime }

/-- Line 244: `KeyCode::Char('m') => active_menu_item = MenuItem::Manga`. -/
def onKeyM (s : AppState) : AppState := { s with active_menu_item := MenuItem.Manga }

/-- Which list a mutation keypress (`e`, `q`, `+`, `-`) targets: every one of
those arms branches on `if (active_category_item == Anime)` (lines 246, 253,
260, 267) — the category variable, not `active_menu_item`. (As written the
comparison is not even legal Rust: `MenuItem` derives no `PartialEq` and
`Anime` is unqualified; the nearest legal reading, equality with
`MenuItem::Anime`, is used here.) -/
def mutationTarget (s : AppState) : MenuItem :=
  if s.active_category_item = MenuItem.Anime then MenuItem.Anime else MenuItem.Manga

/-- The key codes the `match event.code` at lines 242-320 distinguishes:
one constructor per arm, and `other` for the `_ => {}` arm. -/
inductive KeyCode where
  | charA
  | charM
  | charE
  | charQ
  | charPlus
  | charMinus
  | left
  | right
  | down
  | up
  | other
deriving DecidableEq

/-- Whether the arm for a key at lines 242-320 exits the main `loop`
(line 149). Read off arm by arm: no arm contains a `break` or `return` —
in particular `'q'` (lines 252-258) calls `remove_*_at_index` and falls
through to the next iteration, and the `_ => {}` arm does nothing; the
`loop` has no other exit besides a panic or an error propagated by `?`. -/
def keyQuitsLoop : KeyCode → Bool
  | .charA => false
  | .charM => false
  | .charE => false
  | .charQ => false
  | .charPlus => false
  | .charMinus => false
  | .left => false
  | .right => false
  | .down => false
  | .up => false
  | .other => false

/-- The recoverable mutation error of spec §7: an operation targeting an
empty selection fails with `NotFound`. -/
inductive MutError where
  | NotFound
deriving DecidableEq

/-- Modelled from the spec: `edit_anime_at_index` is called at line 247 but
defined nowhere in src. Spec §4.3: Edit replaces mutable fields of the Entry
at the current selection, fails with `NotFound` when there is no selection
(empty filtered list), and has no effect on list length or selection. The
replacement of mutable fields is the function argument `new_fields`; a
selection that points past the end of the list (possible in the source,
which selects `Some(0)` even for an empty list) is likewise an empty-view
`NotFound`. -/
def edit_anime_at_index (new_fields : Anime → Anime) (sel : Option Nat)
    (db : List Anime) : Except MutError (List Anime) :=
  match sel with
  | none => .error .NotFound
  | some i =>
      if h : i < db.length then .ok (db.set i (new_fields (db.get ⟨i, h⟩)))
      else .error .NotFound

/-- Modelled from the spec: `edit_manga_at_indec` (sic, line 249) is defined
nowhere in src. Same contract as `edit_anime_at_index`, acting at the manga
selection; the store evidenced in src is the single list behind `read_db()`
(used for both branches, lines 277/286), so it edits the same list. -/
def edit_manga_at_indec (new_fields : Anime → Anime) (sel : Option Nat)
    (db : List Anime) : Except MutError (List Anime) :=
  match sel with
  | none => .error .NotFound
  | some i =>
      if h : i < db.length then .ok (db.set i (new_fields (db.get ⟨i, h⟩)))
      else .error .NotFound

/-- Lines 245-251, the `KeyCode::Char('e')` arm: branch on
`active_category_item == Anime`, call the edit function for that branch, and
`.expect("can edit ... entry")` its result — so an `Err` (such as `NotFound`
on an empty selection) is a panic (`none`), not a continued loop. -/
def onKeyE (new_fields : Anime → Anime) (s : AppState) : Option AppState :=
  if s.active_category_item = MenuItem.Anime then
    match edit_anime_at_index new_fields s.anime_sel s.db with
    | .ok db2 => some { s with db := db2 }
    | .error _ => none
  else
    match edit_manga_at_indec new_fields s.manga_sel s.db with
    | .ok db2 => some { s with db := db2 }
    | .error _ => none

/-- Follows the spec's words (§3, §4.2), for comparison with the source's
initializers: the initial per-list selection is index 0 when the list is
non-empty and `None` when it is empty. -/
def spec_initial_selection (l : List Anime) : Option Nat :=
  if l.isEmpty then none else some 0

/-- The fixed ordered category sequence of spec §4.2:
`[All, Watching, Completed, OnHold, Dropped, PlanToWatch]`. -/
def categorySeq : List CategoryItem :=
  [.All, .Watching, .Completed, .OnHold, .Dropped, .PlanToWatch]

/-- Modelled from the spec: the source's category-right arm (line 273) is the
non-compiling placeholder `active_category_item = CategoryItem::+1 // !!!`,
so no cyclic step is implemented in src. Spec §4.2: advance by +1 through
`categorySeq`, wrapping modulo its length. -/
def category_right (c : CategoryItem) : CategoryItem :=
  (categorySeq.getD ((categoryItemToUsize c + 1) % 6) .All)

/-- Modelled from the spec: the source's category-left arm (line 272) is the
non-compiling placeholder `active_category_item = CategoryItem::-1 // !!!`.
Spec §4.2: advance by −1, wrapping (−1 modulo 6 is +5 modulo 6). -/
def category_left (c : CategoryItem) : CategoryItem :=
  (categorySeq.getD ((categoryItemToUsize c + 5) % 6) .All)

/-! Persistence model. None of the Store code is in src: `read_db` and any
flush function are only called or implied (the `DB_PATH` constant, line 25,
and the serde derives on `struct Anime`, line 40 — which do not even compile,
since `chrono::Date<Utc>` has no serde implementation). The Store, its Entry
record, and `flush`/`load` below are therefore modelled from the spec
(§3, §4.4, §6). -/

/-- Modelled from the spec (§3): the Entry status enum
`{Watching, Completed, OnHold, Dropped, PlanToWatch}`. -/
inductive Status where
  | Watching
  | Completed
  | OnHold
  | Dropped
  | PlanToWatch
deriving DecidableEq

/-- An exact decimal number `mantissa × 10^(-scale)`, modelling the spec's
"rating (decimal)" encoding (§6) without floating-point rounding. -/
structure Dec where
  mantissa : Int
  scale : Nat
deriving DecidableEq

/-- Modelled from the spec (§3, §6): one tracked title. `started` is a
calendar date with no time component; its textual ISO-8601 rendering is
abstracted as the year/month/day fields themselves. -/
structure Entry where
  name : String
  total_units : Nat
  completed_units : Nat
  status : Status
  rating : Dec
  score : Nat
  started : CalDate
deriving DecidableEq

/-- Modelled from the spec (§3): two ordered sequences of Entry, keyed by
list kind. -/
structure Store where
  anime : List Entry
  manga : List Entry
deriving DecidableEq

/-- The JSON documents the persisted file can hold: numbers, exact decimals,
strings, arrays and objects. -/
inductive Json where
  | num (n : Int)
  | dec (d : Dec)
  | str (s : String)
  | arr (xs : List Json)
  | obj (fields : List (String × Json))

/-- The status names of spec §6, "a string matching one of the five status
names". -/
def statusToString : Status → String
  | .Watching => "Watching"
  | .Completed => "Completed"
  | .OnHold => "OnHold"
  | .Dropped => "Dropped"
  | .PlanToWatch => "PlanToWatch"

/-- Parse a status name back; fails on anything else. -/
def statusFromString : String → Option Status
  | "Watching" => some .Watching
  | "Completed" => some .Completed
  | "OnHold" => some .OnHold
  | "Dropped" => some .Dropped
  | "PlanToWatch" => some .PlanToWatch
  | _ => none

/-- Encode a calendar date as an object of its three components (the spec's
ISO-8601 calendar date, no time component). -/
def dateToJson (d : CalDate) : Json :=
  .obj [("year", .num (Int.ofNat d.year)), ("month", .num (Int.ofNat d.month)),
        ("day", .num (Int.ofNat d.day))]

/-- Modelled from the spec (§6): the field encoding of one Entry record. -/
def entryToJson (e : Entry) : Json :=
  .obj [("name", .str e.name),
        ("total_units", .num (Int.ofNat e.total_units)),
        ("completed_units", .num (Int.ofNat e.completed_units)),
        ("status", .str (statusToString e.status)),
        ("rating", .dec e.rating),
        ("score", .num (Int.ofNat e.score)),
        ("started", dateToJson e.started)]

/-- Decode one Entry record; fails on any shape or field mismatch. -/
def entryFromJson : Json → Option Entry
  | .obj [("name", .str name),
          ("total_units", .num (.ofNat total_units)),
          ("completed_units", .num (.ofNat completed_units)),
          ("status", .str status),
          ("rating", .dec rating),
          ("score", .num (.ofNat score)),
          ("started", .obj [("year", .num (.ofNat y)), ("month", .num (.ofNat mo)),
                            ("day", .num (.ofNat d))])] =>
      (statusFromString status).map fun st =>
        ⟨name, total_units, completed_units, st, rating, score, ⟨y, mo, d⟩⟩
  | _ => none

/-- Decode a JSON array of Entry records; fails if any element fails. -/
def entriesFromJson : List Json → Option (List Entry)
  | [] => some []
  | j :: js => do
      let e ← entryFromJson j
      let es ← entriesFromJson js
      pure (e :: es)

/-- The startup/persistence errors of src lines 27-33 (`ReadDBError`,
`ParseDBError`): `load` reports a malformed document as a parse error. -/
inductive DBError where
  | ParseDBError
deriving DecidableEq

/-- Modelled from the spec (§4.4, §6): `flush` writes the Store as a record
with two named arrays, one per list kind (the spec's second allowed layout). -/
def flush (st : Store) : Json :=
  .obj [("anime", .arr (st.anime.map entryToJson)),
        ("manga", .arr (st.manga.map entryToJson))]

/-- Modelled from the spec (§4.4): `load` parses the persisted document back
into a Store, failing with a parse error on a malformed document. -/
def load : Json → Except DBError Store
  | .obj [("anime", .arr animeJs), ("manga", .arr mangaJs)] =>
      match entriesFromJson animeJs, entriesFromJson mangaJs with
      | some animeEs, some mangaEs => .ok ⟨animeEs, mangaEs⟩
      | _, _ => .error .ParseDBError
  | _ => .error .ParseDBError

/-- The selection of the list a dispatch arm targets: the anime selection
when `active_category_item == Anime` (the branch condition used at lines 246,
253, 260, 267, 275, 298), otherwise the manga selection. -/
def targetSel (s : AppState) : Option Nat :=
  if s.active_category_item = MenuItem.Anime then s.anime_sel else s.manga_sel

/-- A concrete entry for counterexample states. -/
def e0 : Anime := ⟨"A", 2001, 12, 5, "Watching", 3, 7, ⟨2020, 1, 1⟩⟩

/-- A second concrete entry for counterexample states. -/
def e1 : Anime := ⟨"B", 2002, 24, 6, "Completed", 4, 8, ⟨2021, 2, 2⟩⟩

/-! Helper lemmas for the cursor-down wrap law. -/

lemma downStep_eq_mod (L s : Nat) (hL : 0 < L) (hs : s < L) :
    downStep L s = (s + 1) % L := by
  unfold downStep
  rcases Nat.lt_or_ge s (L - 1) with h | h
  · rw [if_neg (by omega)]
    exact (Nat.mod_eq_of_lt (by omega)).symm
  · rw [if_pos h]
    have hsl : s + 1 = L := by omega
    rw [hsl, Nat.mod_self]

lemma downStep_iterate (L : Nat) (hL : 0 < L) :
    ∀ (k s : Nat), s < L → (downStep L)^[k] s = (s + k) % L := by
  intro k
  induction k with
  | zero =>
      intro s hs
      simp [Nat.mod_eq_of_lt hs]
  | succ k ih =>
      intro s hs
      rw [Function.iterate_succ_apply', ih s hs,
        downStep_eq_mod L _ hL (Nat.mod_lt _ hL), Nat.mod_add_mod, Nat.add_assoc]

/-! Helper lemmas for the persistence round trip. -/

lemma entry_roundtrip (e : Entry) : entryFromJson (entryToJson e) = some e := by
  obtain ⟨name, tu, cu, st, rat, sc, ⟨y, mo, d⟩⟩ := e
  cases st <;> rfl

lemma entries_roundtrip (es : List Entry) :
    entriesFromJson (es.map entryToJson) = some es := by
  induction es with
  | nil => rfl
  | cons e es ih => simp [entriesFromJson, entry_roundtrip, ih]

/-! The claim theorems. -/

/-- C1: the claim says cursor-up and cursor-down never produce a runtime
error or panic, including on an empty active list. The code violates this:
from the startup state with an empty DB file (both selections are
`Some(0)`, lines 144-147), both arms evaluate `amount - 1` with
`amount = 0` — a usize underflow panic — in whichever branch the
`active_category_item == Anime` test selects. This theorem evaluates the
embedded handlers at those states: all four panic (`none`). -/
theorem c1_cursor_keys_panic_on_empty_db :
    onDown ⟨.Anime, .Anime, some 0, some 0, []⟩ = none ∧
    onUp ⟨.Anime, .Anime, some 0, some 0, []⟩ = none ∧
    onDown ⟨.Anime, .Manga, some 0, some 0, []⟩ = none ∧
    onUp ⟨.Anime, .Manga, some 0, some 0, []⟩ = none :=
  ⟨rfl, rfl, rfl, rfl⟩

/-- C2: the claim says a mutation keypress targets the entry of the
currently active list, as last set by `'a'`/`'m'`. The code violates this:
after pressing `'m'` (so `active_menu_item = Manga`), in a state whose
`active_category_item` is `Anime`, every mutation arm's branch condition
`active_category_item == Anime` still selects the anime list —
`active_menu_item` is never consulted by the dispatch. -/
theorem c2_mutation_ignores_active_list :
    (onKeyM ⟨.Anime, .Anime, some 0, some 0, []⟩).active_menu_item = .Manga ∧
    mutationTarget (onKeyM ⟨.Anime, .Anime, some 0, some 0, []⟩) = .Anime :=
  ⟨rfl, rfl⟩

/-- C3: the claim says some input (the quit key) terminates the main loop.
The code violates this: no arm of the key match exits the loop — `'q'` is
bound to remove-at-selection (lines 252-258) and every arm, the wildcard
included, falls through to the next iteration. -/
theorem c3_no_key_terminates_loop :
    keyQuitsLoop .charQ = false ∧ ∀ k, keyQuitsLoop k = false :=
  ⟨rfl, fun k => by cases k <;> rfl⟩

/-- C4: the cursor-down wrap law. For a list of length `L ≥ 1` and any
starting index `s < L`, applying the cursor-down step (`downStep`, the
arithmetic of lines 278-282) `L` times returns the selection to `s`. -/
theorem c4_cursor_down_wrap_law (L s : Nat) (hL : 0 < L) (hs : s < L) :
    (downStep L)^[L] s = s := by
  rw [downStep_iterate L hL L s hs, Nat.add_mod_right, Nat.mod_eq_of_lt hs]

/-- C4 witness: the wrap law instantiated at `L = 3`, `s = 1`. -/
theorem c4_cursor_down_wrap_law_witness :
    0 < 3 ∧ 1 < 3 ∧ (downStep 3)^[3] 1 = 1 :=
  ⟨by decide, by decide, c4_cursor_down_wrap_law 3 1 (by decide) (by decide)⟩

/-- C5: the claim's inverse law (left then right, and right then left,
return to the original category), proved of the spec-modelled cyclic step —
the source's own Left/Right arms (lines 272-273) are the non-compiling
placeholders `CategoryItem::-1` / `CategoryItem::+1` and implement nothing. -/
theorem c5_category_left_right_inverse (c : CategoryItem) :
    category_right (category_left c) = c ∧ category_left (category_right c) = c := by
  cases c <;> exact ⟨rfl, rfl⟩

/-- C6 counterexample: the claim says the initial per-list selection is
`None` when that list is empty, but lines 144-147 select `Some(0)`
unconditionally, so for an empty list the code's initial selection differs
from the spec's. -/
theorem c6_initial_selection_counterexample :
    spec_initial_selection [] = none ∧ initial_anime_selection = some 0 ∧
    initial_anime_selection ≠ spec_initial_selection [] :=
  ⟨rfl, rfl, by decide⟩

/-- C6 (amended): the initial state is active list Anime with both per-list
selections `Some 0` unconditionally, even when a list is empty. -/
theorem c6_initial_state :
    initial_active_menu_item = MenuItem.Anime ∧
    initial_anime_selection = some 0 ∧ initial_manga_selection = some 0 :=
  ⟨rfl, rfl, rfl⟩

/-- C7: pressing `'a'` or `'m'` (lines 243-244) assigns `active_menu_item`
and changes nothing else: the category, both selections and the store are
all preserved. -/
theorem c7_select_list_changes_only_active_list (s : AppState) :
    (onKeyA s).active_menu_item = MenuItem.Anime ∧
    (onKeyA s).active_category_item = s.active_category_item ∧
    (onKeyA s).anime_sel = s.anime_sel ∧
    (onKeyA s).manga_sel = s.manga_sel ∧
    (onKeyA s).db = s.db ∧
    (onKeyM s).active_menu_item = MenuItem.Manga ∧
    (onKeyM s).active_category_item = s.active_category_item ∧
    (onKeyM s).anime_sel = s.anime_sel ∧
    (onKeyM s).manga_sel = s.manga_sel ∧
    (onKeyM s).db = s.db :=
  ⟨rfl, rfl, rfl, rfl, rfl, rfl, rfl, rfl, rfl, rfl⟩

/-- C8 counterexample: the claim says that after Edit fails with `NotFound`
on an empty selection the main loop continues running. With no selection the
edit call does return `Err(NotFound)` with the store untouched, but the
dispatch arm unwraps it with `.expect("can edit anime entry")` (line 247),
so the loop panics (`none`) instead of continuing. -/
theorem c8_edit_empty_selection_panics_counterexample :
    edit_anime_at_index id none ([] : List Anime) = .error .NotFound ∧
    onKeyE id ⟨.Anime, .Anime, none, some 0, []⟩ = none :=
  ⟨rfl, rfl⟩

/-- C8 (amended): when the selection of the dispatch-targeted list is
`None`, the edit call fails with the recoverable `NotFound` and does not
touch the store, but the main loop does not continue: the `.expect` at the
call site (lines 247/249) turns the error into a panic. -/
theorem c8_edit_no_selection_notfound_then_panic (f : Anime → Anime)
    (s : AppState) (h : targetSel s = none) :
    edit_anime_at_index f none s.db = .error .NotFound ∧
    edit_manga_at_indec f none s.db = .error .NotFound ∧
    onKeyE f s = none := by
  refine ⟨rfl, rfl, ?_⟩
  unfold targetSel at h
  unfold onKeyE
  by_cases hc : s.active_category_item = MenuItem.Anime
  · rw [if_pos hc] at h
    rw [if_pos hc, h]
    rfl
  · rw [if_neg hc] at h
    rw [if_neg hc, h]
    rfl

/-- C8 witness: the amended theorem at a concrete manga-branch state. -/
theorem c8_edit_no_selection_witness :
    targetSel ⟨.Anime, .Manga, some 0, none, [e0]⟩ = none ∧
    onKeyE id ⟨.Anime, .Manga, some 0, none, [e0]⟩ = none :=
  ⟨rfl, (c8_edit_no_selection_notfound_then_panic id
    ⟨.Anime, .Manga, some 0, none, [e0]⟩ rfl).2.2⟩

/-- C9: the persistence round-trip law, proved of the spec-modelled Store
and its `flush`/`load` (no persistence code exists in src): loading the
flushed document recovers the Store exactly, every Entry field included. -/
theorem c9_store_flush_load_roundtrip (st : Store) : load (flush st) = .ok st := by
  obtain ⟨a, m⟩ := st
  simp [flush, load, entries_roundtrip]

/-- C10 counterexample: the claim says that whenever the active list's
selection is `None`, cursor-down leaves the state unchanged. In a state with
active list Manga (set by `'m'`) and no manga selection, but with
`active_category_item = Anime`, cursor-down still advances the anime
selection, because the arm branches on `active_category_item == Anime`
rather than on the active list. -/
theorem c10_cursor_down_moves_despite_none_active_selection :
    (⟨.Manga, .Anime, some 0, none, [e0, e1]⟩ : AppState).active_menu_item = .Manga ∧
    (⟨.Manga, .Anime, some 0, none, [e0, e1]⟩ : AppState).manga_sel = none ∧
    onDown ⟨.Manga, .Anime, some 0, none, [e0, e1]⟩ =
      some ⟨.Manga, .Anime, some 1, none, [e0, e1]⟩ ∧
    onDown ⟨.Manga, .Anime, some 0, none, [e0, e1]⟩ ≠
      some ⟨.Manga, .Anime, some 0, none, [e0, e1]⟩ :=
  ⟨rfl, rfl, rfl, by decide⟩

/-- C10 (amended): when the selection of the list the dispatch targets
(chosen by `active_category_item == Anime`, not by the active list) is
`None`, cursor-up and cursor-down are no-ops: no panic, and the entire
state — store included — is unchanged. -/
theorem c10_cursor_keys_noop_without_target_selection (s : AppState)
    (h : targetSel s = none) :
    onDown s = some s ∧ onUp s = some s := by
  unfold targetSel at h
  unfold onDown onUp
  by_cases hc : s.active_category_item = MenuItem.Anime
  · rw [if_pos hc] at h
    rw [if_pos hc, if_pos hc, h]
    exact ⟨rfl, rfl⟩
  · rw [if_neg hc] at h
    rw [if_neg hc, if_neg hc, h]
    exact ⟨rfl, rfl⟩

/-- C10 witness: the amended theorem at a concrete state whose targeted
(anime-branch) selection is `None`. -/
theorem c10_cursor_keys_noop_witness :
    targetSel ⟨.Manga, .Anime, none, some 0, [e0]⟩ = none ∧
    onDown ⟨.Manga, .Anime, none, some 0, [e0]⟩ =
      some ⟨.Manga, .Anime, none, some 0, [e0]⟩ :=
  ⟨rfl, (c10_cursor_keys_noop_without_target_selection
    ⟨.Manga, .Anime, none, some 0, [e0]⟩ rfl).1⟩

end TerminalAnimeList
